import Mathlib

/-!
Shallow embedding of the core of the `monitor-telegram-message` repository:
the id normalizer (`src/utils/formatUtils.js`), the keyword classifier and
dedup logic of `handleMessage` (`src/utils/messageUtils.js`), the periodic
dedup sweep (`src/core/telegram-monitor.js`), the expiry scanner and bulk
deleter (`src/core/message-deleter.js`), the retraction engine
(`deletePreviousNotifications`) and the configuration parsing of
`src/realtime-monitor.js`.  JavaScript strings are modelled as `String` /
`List Char`, JS numbers holding integral values as `Int` / `Nat`, JS `Map`s
as association lists with `Map.set` semantics (replace in place, append new
keys at the end), and network calls as environment parameters recording
their outcomes.
-/

set_option autoImplicit false

namespace MonitorTG

/-- The character class `\s` of JavaScript regular expressions. -/
def isSpaceJs (c : Char) : Bool :=
  c.toNat == 32 || c.toNat == 9 || c.toNat == 10 || c.toNat == 11 || c.toNat == 12 ||
  c.toNat == 13 || c.toNat == 160 || c.toNat == 0x1680 ||
  (0x2000 ≤ c.toNat && c.toNat ≤ 0x200a) || c.toNat == 0x2028 || c.toNat == 0x2029 ||
  c.toNat == 0x202f || c.toNat == 0x205f || c.toNat == 0x3000 || c.toNat == 0xfeff

/-- The character class `\w` of JavaScript regular expressions: `[A-Za-z0-9_]`. -/
def isWordCharJs (c : Char) : Bool :=
  (48 ≤ c.toNat && c.toNat ≤ 57) || (65 ≤ c.toNat && c.toNat ≤ 90) ||
  (97 ≤ c.toNat && c.toNat ≤ 122) || c.toNat == 95

/-- The character class `\d`: `[0-9]`. -/
def isDigitJs (c : Char) : Bool := 48 ≤ c.toNat && c.toNat ≤ 57

/-- JS truthiness of an optional numeric field (`undefined` and `0` are falsy). -/
def jsTruthyNat (o : Option Nat) : Bool :=
  match o with
  | some n => n != 0
  | none => false

/-! ## `normalizeId` (src/utils/formatUtils.js)

`String(raw).replace(/\s+/g, '').replace(/^(?:-?100|-)?(\d*)?.*/, '$1')`:
all whitespace is removed, then an optional leading marker (`-100`, `100`
or a bare `-`, tried in this order by the regex alternation) is dropped and
only the leading digit run of the remainder is kept. -/

/-- `String(raw).replace(/\s+/g, '')`. -/
def stripWs (l : List Char) : List Char := l.filter (fun c => !isSpaceJs c)

/-- The optional leading marker `(?:-?100|-)?` of the `normalizeId` regex. -/
def dropMarker (l : List Char) : List Char :=
  match l with
  | '-' :: '1' :: '0' :: '0' :: rest => rest
  | '1' :: '0' :: '0' :: rest => rest
  | '-' :: rest => rest
  | rest => rest

/-- The capture `(\d*)?` (the trailing `.*` discards everything after it). -/
def leadingDigits (l : List Char) : List Char := l.takeWhile isDigitJs

def normalizeIdList (l : List Char) : List Char := leadingDigits (dropMarker (stripWs l))

/-- `normalizeId` on a string input. -/
def normalizeId (s : String) : String := ⟨normalizeIdList s.data⟩

/-- `normalizeId` on a possibly-null input (`normalizeId(null) === ''`). -/
def normalizeIdOpt (s : Option String) : String :=
  match s with
  | none => ""
  | some str => normalizeId str

/-- Does a character list start with the digits `100`? -/
def startsWith100 (l : List Char) : Bool :=
  match l with
  | '1' :: '0' :: '0' :: _ => true
  | _ => false

/-! ## Configuration parsing (src/realtime-monitor.js, src/core/message-deleter.js) -/

def digitsToNat (l : List Char) : Nat := l.foldl (fun n c => 10 * n + (c.toNat - 48)) 0

/-- JavaScript `parseInt` on a string (decimal case): leading whitespace is
skipped, an optional sign is read, and the leading digit run is parsed;
`none` models `NaN`. -/
def jsParseInt (s : String) : Option Int :=
  let l := s.data.dropWhile isSpaceJs
  match l with
  | '-' :: rest =>
    let ds := rest.takeWhile isDigitJs
    if ds.isEmpty then none else some (-(digitsToNat ds : Int))
  | '+' :: rest =>
    let ds := rest.takeWhile isDigitJs
    if ds.isEmpty then none else some (digitsToNat ds)
  | _ =>
    let ds := l.takeWhile isDigitJs
    if ds.isEmpty then none else some (digitsToNat ds)

/-- `parseInt(x) || dflt`: an unset variable, `NaN` and `0` all fall back. -/
def parseIntOr (s : Option String) (dflt : Int) : Int :=
  match s with
  | none => dflt
  | some str =>
    match jsParseInt str with
    | none => dflt
    | some n => if n == 0 then dflt else n

/-- `const AUTO_DELETE_MINUTES = parseInt(process.env.AUTO_DELETE_MINUTES) || 10`
(same line in src/realtime-monitor.js and in `deleteExpiredMessages`). -/
def effectiveAutoDeleteMinutes (env : Option String) : Int := parseIntOr env 10

/-- The early-exit guard of `deleteExpiredMessages`:
`if (AUTO_DELETE_MINUTES <= 0) return`. -/
def autoDeleteDisabled (m : Int) : Bool := m ≤ 0

/-- `intervalMs = autoDeleteMinutes > 0 ? Math.max(1, autoDeleteMinutes)*60*1000 : 0`
(src/realtime-monitor.js). -/
def autoDeleteIntervalMs (m : Int) : Int := if m > 0 then (max 1 m) * 60 * 1000 else 0

/-- `startAutoDeleteInterval` schedules the timer iff `intervalMs && intervalMs > 0`. -/
def autoDeleteTimerScheduled (m : Int) : Bool := autoDeleteIntervalMs m > 0

/-- `DEDUP_WINDOW_MINUTES = parseInt(env) || Math.max(1, AUTO_DELETE_MINUTES)`
(src/realtime-monitor.js line 19, re-applied in `initializeMonitoring`). -/
def effectiveDedupWindowMinutes (env : Option String) (autoDeleteMinutes : Int) : Int :=
  parseIntOr env (max 1 autoDeleteMinutes)

/-! ## Dedup store (processedMessages) and its periodic sweep -/

/-- One value of the `processedMessages` map: `{ ts: Date.now(), text: displayText }`. -/
structure DedupEntry where
  ts : Int
  text : String
deriving Repr, DecidableEq

/-- `processedMessages`, a JS `Map<dedupKey, DedupEntry>` in insertion order. -/
abbrev DedupStore := List (String × DedupEntry)

def dedupLookup (k : String) : DedupStore → Option DedupEntry
  | [] => none
  | (k', v) :: rest => if k' == k then some v else dedupLookup k rest

/-- `Map.set`: replace in place if present, append otherwise. -/
def dedupSet (k : String) (v : DedupEntry) : DedupStore → DedupStore
  | [] => [(k, v)]
  | (k', v') :: rest => if k' == k then (k', v) :: rest else (k', v') :: dedupSet k v rest

/-- `cleanupProcessedMessages` (src/core/telegram-monitor.js): deletes every
entry with `now - value.ts > dedupWindowMinutes * 60 * 1000`. -/
def cleanupProcessedMessages (now dedupWindowMinutes : Int) (store : DedupStore) : DedupStore :=
  store.filter (fun e => !decide (now - e.2.ts > dedupWindowMinutes * 60 * 1000))

/-- A sequence of periodic sweeps at the given times. -/
def applySweeps (dedupWindowMinutes : Int) (sweeps : List Int) (store : DedupStore) : DedupStore :=
  sweeps.foldl (fun st s => cleanupProcessedMessages s dedupWindowMinutes st) store

/-! ## Keyword matching (`matchKeyword` inside `handleMessage`) -/

/-- `toLowerCase` restricted to ASCII letters (the only case mapping the
monitored ASCII keywords exercise; CJK characters are unaffected). -/
def jsToLowerChar (c : Char) : Char :=
  if 65 ≤ c.toNat ∧ c.toNat ≤ 90 then Char.ofNat (c.toNat + 32) else c

def jsToLower (s : String) : String := ⟨s.data.map jsToLowerChar⟩

/-- Does `pat` occur in `t` starting at index `i`? -/
def sublistAt (t pat : List Char) (i : Nat) : Bool := (t.drop i).take pat.length == pat

/-- `String.prototype.includes`. -/
def jsIncludesList (t pat : List Char) : Bool := (List.range (t.length + 1)).any (sublistAt t pat)

def jsIncludes (s pat : String) : Bool := jsIncludesList s.data pat.data

/-- `\b` on the left of a match starting at `i`. -/
def boundaryBefore (t : List Char) (i : Nat) : Bool :=
  i == 0 ||
    (match t.get? (i - 1) with
     | some c => !isWordCharJs c
     | none => true)

/-- `\b` on the right of a match ending before index `j`. -/
def boundaryAfter (t : List Char) (j : Nat) : Bool :=
  match t.get? j with
  | some c => !isWordCharJs c
  | none => true

/-- Semantics of the regex `\bK\b` for a keyword `K` consisting of word
characters (for such `K` the source's escaping is the identity). -/
def wordBoundaryTest (t pat : List Char) : Bool :=
  (List.range (t.length + 1)).any
    (fun i => sublistAt t pat i && boundaryBefore t i && boundaryAfter t (i + pat.length))

/-- The branch test of `matchKeyword`:
`/[^\w\s]/.test(keyword) || /\s/.test(keyword)`. -/
def keywordNeedsSubstring (kw : List Char) : Bool :=
  kw.any (fun c => !isWordCharJs c && !isSpaceJs c) || kw.any isSpaceJs

/-- One keyword test inside `matchKeyword` of `handleMessage`
(src/utils/messageUtils.js): substring matching for keywords with
punctuation or whitespace, `\b...\b` regex matching otherwise. -/
def matchKeywordOne (textLower kw : List Char) : Bool :=
  if keywordNeedsSubstring kw then jsIncludesList textLower kw
  else wordBoundaryTest textLower kw

/-- `matchKeyword(keywordList)` evaluated against `textLower`. -/
def matchKeyword (textLower : String) (keywordList : List String) : Bool :=
  keywordList.any (fun kw => matchKeywordOne textLower.data kw.data)

/-- The classifier pipeline for one keyword list: `handleMessage` lowercases
the display text (`textLower = displayText.toLowerCase()`) before matching;
the configured keywords are already lowercased by `initializeMonitoring`. -/
def classifierKeywordMatch (displayText : String) (keywordList : List String) : Bool :=
  matchKeyword (jsToLower displayText) keywordList

/-! ## Messages and message content (src/utils/messageUtils.js) -/

/-- The fields of `message.peerId` the monitor inspects. -/
structure PeerInfo where
  userId : Option Nat
  chatId : Option Nat
  channelId : Option Nat
deriving Repr, DecidableEq

/-- An inbound message as `handleMessage` consumes it.  `text` is the result
of `extractMessageText` (`""` when the message carries no text). -/
structure MsgIn where
  peerId : Option PeerInfo
  id : Nat
  rawSender : Option String
  text : String
  hasMedia : Bool
deriving Repr, DecidableEq

/-- The `displayText` computed by `processMessageContent`: the extracted text,
or a placeholder depending on the presence of media. -/
def processMessageContent (m : MsgIn) : String :=
  if m.text ≠ "" then m.text else if m.hasMedia then "[媒体消息]" else "[无内容消息]"

/-! ## DispatchRecord (sentNotificationMessages) and the Retraction Engine -/

/-- `sentNotificationMessages`, a JS `Map<chatId, messageId[]>` in insertion order. -/
abbrev SentStore := List (String × List Nat)

def sentLookup (k : String) : SentStore → Option (List Nat)
  | [] => none
  | (k', v) :: rest => if k' == k then some v else sentLookup k rest

def sentSet (k : String) (v : List Nat) : SentStore → SentStore
  | [] => [(k, v)]
  | (k', v') :: rest => if k' == k then (k', v) :: rest else (k', v') :: sentSet k v rest

/-- `deletePreviousNotifications` (src/utils/messageUtils.js): reads the ids
recorded for the target (`get(...) || []`); with no ids it returns at once,
otherwise it attempts the deletions (per id over the bot API, or batch with
per-id fallback over the client) and then sets the target's entry to `[]`.
The embedding returns the ids whose deletion is attempted together with the
new store; deletion failures do not affect either. -/
def deletePreviousNotifications (store : SentStore) (notificationChatId : String) :
    List Nat × SentStore :=
  let ids := (sentLookup notificationChatId store).getD []
  if ids.isEmpty then ([], store)
  else (ids, sentSet notificationChatId [] store)

/-- `NOTIFICATION_CHAT_ID.split(',').map(id => id.trim())`. -/
def splitCommaTrim (s : String) : List String := (s.splitOn ",").map String.trim

/-- The retraction loop of `handleMessage`: `deletePreviousNotifications`
for every configured notification target. -/
def retractAll (targets : List String) (store : SentStore) : SentStore :=
  targets.foldl (fun st t => (deletePreviousNotifications st t).2) store

/-- `shouldDeletePreviousNotifications`: some configured trigger keyword is a
literal substring of the text (both branches of the source call `includes`). -/
def shouldDeletePreviousNotifications (messageText : String) (kws : List String) : Bool :=
  if kws.isEmpty then false
  else kws.any (fun k => jsIncludes messageText k)

/-! ## Notifier state effect (`sendNotification`, src/utils/telegramUtil.js) -/

/-- Recording one delivered notification id: ensure the key exists, then push. -/
def sentAppend (store : SentStore) (target : String) (mid : Nat) : SentStore :=
  match sentLookup target store with
  | some v => sentSet target (v ++ [mid]) store
  | none => sentSet target [mid] store

/-- The `sentNotificationMessages` effect of `sendNotification`: nothing when
`NOTIFICATION_CHAT_ID` is unset; otherwise, for each comma-separated target,
append the returned message id when delivery succeeded (`notifyResult t =
some id`) and leave the store unchanged when it failed. -/
def sendNotificationStore (notificationChatId : String) (notifyResult : String → Option Nat)
    (store : SentStore) : SentStore :=
  if notificationChatId == "" then store
  else
    (splitCommaTrim notificationChatId).foldl
      (fun st t =>
        match notifyResult t with
        | some mid => sentAppend st t mid
        | none => st)
      store

/-! ## `handleMessage` (src/utils/messageUtils.js) -/

/-- The configuration `initializeMonitoring` passes to `handleMessage`. -/
structure MonitorConfig where
  normalizedMonitorIds : List String
  monitorChatIds : List String
  targetUserIdsNormalized : List String
  userKeywordsNormalized : List String
  monitorKeywordsNormalized : List String
  selfIdNormalized : String
  botIdNormalized : String
  notificationChatId : String
  normalizedNotMonitorIds : List String
  deleteNotificationKeywords : List String

/-- The chat entity returned by `client.getEntity(message.peerId)`. -/
structure ChatEnt where
  isBroadcastChannel : Bool
  idStr : String
deriving Repr, DecidableEq

/-- External effects of one `handleMessage` run: the entity lookup
(`none` models the lookup throwing) and, per notification target, the
message id returned by a successful delivery (`none` models failure). -/
structure HandleEnv where
  entity : Option ChatEnt
  notifyResult : String → Option Nat

inductive SkipReason
  | privateChat
  | broadcast
  | notMonitorList
  | retractedInNotifChat
  | botInNotifChat
  | selfInNotifChat
  | notMonitored
  | emptyContent
  | noKeywordMatch
deriving Repr, DecidableEq

inductive HandleOutcome
  | skipped (r : SkipReason)
  | skipDuplicate
  | notified
deriving Repr, DecidableEq

/-- Result of the part of `handleMessage` that precedes the dedup check:
either an early return, or the dedup key and display text of a message that
will be deduplicated and forwarded.  `retracts` counts how many times the
retraction loop over all notification targets ran before that point. -/
structure PreRes where
  exitReason : Option SkipReason
  key : String
  displayText : String
  retracts : Nat
deriving Repr, DecidableEq

/-- Steps 1–6 and the keyword classification of `handleMessage`, in source
order: skip private chats; resolve the chat entity (skipping read-only
broadcast channels, falling back to ids built from `peerId` when the lookup
throws); skip chats on the not-monitor list; handle the notification chat
(retraction trigger, bot and self messages); check allow-list membership
(the group-migration fallback sits after the non-empty-allow-list return);
extract the display text; run the monitored-group retraction trigger; and
classify by target user and keyword lists. -/
def preClassify (cfg : MonitorConfig) (entity : Option ChatEnt) (msg : MsgIn) : PreRes :=
  if (match msg.peerId with
      | some p => jsTruthyNat p.userId
      | none => false) then
    ⟨some .privateChat, "", "", 0⟩
  else if (match msg.peerId, entity with
      | some _, some ent => ent.isBroadcastChannel
      | _, _ => false) then
    ⟨some .broadcast, "", "", 0⟩
  else
    let chatId : Option String :=
      match msg.peerId with
      | none => none
      | some p =>
        match entity with
        | some ent => some ent.idStr
        | none =>
          if jsTruthyNat p.channelId then some ("-100" ++ toString (p.channelId.getD 0))
          else if jsTruthyNat p.chatId then some ("-" ++ toString (p.chatId.getD 0))
          else if jsTruthyNat p.userId then some (toString (p.userId.getD 0))
          else none
    let normalizedChatId := normalizeIdOpt chatId
    let normalizedNotifChatId := normalizeId cfg.notificationChatId
    if cfg.normalizedNotMonitorIds.contains normalizedChatId then
      ⟨some .notMonitorList, "", "", 0⟩
    else
      let normalizedSenderId := normalizeIdOpt msg.rawSender
      let displayText := processMessageContent msg
      let inNotifChat := normalizedChatId == normalizedNotifChatId
      let notifRetract := inNotifChat && !cfg.deleteNotificationKeywords.isEmpty &&
        shouldDeletePreviousNotifications displayText cfg.deleteNotificationKeywords
      let isMonitoredBase := cfg.normalizedMonitorIds.isEmpty ||
        (normalizedChatId ≠ "" && cfg.normalizedMonitorIds.contains normalizedChatId)
      if notifRetract && isMonitoredBase then
        ⟨some .retractedInNotifChat, "", "", 1⟩
      else
        let retracts0 : Nat := if notifRetract then 1 else 0
        if inNotifChat && (normalizedSenderId ≠ "" && cfg.botIdNormalized ≠ "" &&
            normalizedSenderId == cfg.botIdNormalized) then
          ⟨some .botInNotifChat, "", "", retracts0⟩
        else if inNotifChat &&
            (normalizedSenderId ≠ "" && normalizedSenderId == cfg.selfIdNormalized) then
          ⟨some .selfInNotifChat, "", "", retracts0⟩
        else if !cfg.monitorChatIds.isEmpty && !isMonitoredBase then
          ⟨some .notMonitored, "", "", retracts0⟩
        else
          let isMonitored := isMonitoredBase ||
            (match msg.peerId with
             | some p =>
               if jsTruthyNat p.chatId && jsTruthyNat p.channelId then
                 cfg.normalizedMonitorIds.contains (normalizeId ("-" ++ toString (p.chatId.getD 0)))
               else false
             | none => false)
          if !isMonitored then
            ⟨some .notMonitored, "", "", retracts0⟩
          else if displayText == "" then
            ⟨some .emptyContent, "", "", retracts0⟩
          else
            let shouldCheckDelete := cfg.targetUserIdsNormalized.isEmpty ||
              (normalizedSenderId ≠ "" && cfg.targetUserIdsNormalized.contains normalizedSenderId)
            let retracts := if !cfg.deleteNotificationKeywords.isEmpty && shouldCheckDelete &&
                shouldDeletePreviousNotifications displayText cfg.deleteNotificationKeywords then
                retracts0 + 1
              else retracts0
            let textLower := jsToLower displayText
            let isTargetUser := normalizedSenderId ≠ "" && !cfg.targetUserIdsNormalized.isEmpty &&
              cfg.targetUserIdsNormalized.contains normalizedSenderId
            let hasUserKeyword := !cfg.userKeywordsNormalized.isEmpty &&
              matchKeyword textLower cfg.userKeywordsNormalized
            let hasMonitorKeyword := !cfg.monitorKeywordsNormalized.isEmpty &&
              matchKeyword textLower cfg.monitorKeywordsNormalized
            let shouldProcess :=
              (isTargetUser && (cfg.userKeywordsNormalized.isEmpty || hasUserKeyword)) ||
              hasMonitorKeyword ||
              (cfg.monitorKeywordsNormalized.isEmpty && cfg.userKeywordsNormalized.isEmpty)
            if !shouldProcess then ⟨some .noKeywordMatch, "", "", retracts⟩
            else ⟨none, normalizedChatId ++ ":" ++ toString msg.id, displayText, retracts⟩

/-- `handleMessage`: the pre-dedup pipeline, then the dedup check on
`normalizedChatId:message.id` (`processedMessages.has`), the insertion of
`{ ts: Date.now(), text: displayText }`, and the notification dispatch.
`now` is `Date.now()` in milliseconds. -/
def handleMessage (cfg : MonitorConfig) (env : HandleEnv) (now : Int) (msg : MsgIn)
    (processedMessages : DedupStore) (sentNotificationMessages : SentStore) :
    HandleOutcome × DedupStore × SentStore :=
  let p := preClassify cfg env.entity msg
  let sent1 := Nat.iterate (retractAll (splitCommaTrim cfg.notificationChatId)) p.retracts
    sentNotificationMessages
  match p.exitReason with
  | some r => (.skipped r, processedMessages, sent1)
  | none =>
    if (dedupLookup p.key processedMessages).isSome then
      (.skipDuplicate, processedMessages, sent1)
    else
      (.notified, dedupSet p.key ⟨now, p.displayText⟩ processedMessages,
        sendNotificationStore cfg.notificationChatId env.notifyResult sent1)

/-! ## Expiry scanner and bulk deleter (src/core/message-deleter.js) -/

/-- A message as the expiry scanner sees it: `text` is `msg.message`
(`""` when absent), `isService` models `className === 'MessageService'`,
`hasAction` models a truthy `msg.action`. -/
structure ScanMsg where
  id : Nat
  date : Int
  senderId : Option Nat
  isService : Bool
  hasAction : Bool
  text : String
  media : Bool
deriving Repr, DecidableEq

/-- `isDeletableMessage` (src/utils/messageUtils.js). -/
def isDeletableMessage (m : ScanMsg) : Bool :=
  if m.isService || m.hasAction then false
  else m.text ≠ "" || m.media

/-- `compareSenderId` (src/utils/messageUtils.js) on numeric ids: falsy
operands never match; otherwise the string forms are compared. -/
def compareSenderId (senderId targetId : Option Nat) : Bool :=
  match senderId, targetId with
  | some a, some b => a != 0 && b != 0 && a == b
  | _, _ => false

/-- `getRecentMessagesRealtime` (inside `deleteExpiredMessages`): walk the
newest messages, break at the first one older than the 600-second recency
horizon, skip non-deletable ones, and collect self-authored messages older
than `cutoffTime`.  `none` entries model null slots (skipped).  `now` is
`Math.floor(Date.now() / 1000)`. -/
def getRecentMessagesRealtime (now cutoffTime : Int) (myUserId : Nat) :
    List (Option ScanMsg) → List ScanMsg
  | [] => []
  | none :: rest => getRecentMessagesRealtime now cutoffTime myUserId rest
  | some m :: rest =>
    if m.date < now - 600 then []
    else if !isDeletableMessage m then getRecentMessagesRealtime now cutoffTime myUserId rest
    else if compareSenderId m.senderId (some myUserId) && decide (m.date < cutoffTime) then
      m :: getRecentMessagesRealtime now cutoffTime myUserId rest
    else getRecentMessagesRealtime now cutoffTime myUserId rest

/-- `safeDeleteMessages` (inside `deleteExpiredMessages`): one bulk delete of
the whole batch; on error, delete ids one by one, counting successes and
failures independently.  `bulkOk` is the outcome of the bulk call and
`itemOk` the per-id outcomes of the fallback. -/
def safeDeleteMessages (bulkOk : Bool) (itemOk : Nat → Bool) (ids : List Nat) : Nat × Nat :=
  if bulkOk then (ids.length, 0)
  else
    ids.foldl (fun acc i => if itemOk i then (acc.1 + 1, acc.2) else (acc.1, acc.2 + 1)) (0, 0)

/-! ## Concrete fixtures used by the claim-level evaluations -/

/-- Monitor-all configuration: empty allow/deny/user lists, one monitor
keyword, notification target `999`. -/
def cfgMonitorAll : MonitorConfig :=
  ⟨[], [], [], [], ["开奖"], "1", "", "999", [], []⟩

/-- Environment where entity lookup succeeds on a megagroup and every
notification delivery fails. -/
def envNoSend : HandleEnv := ⟨some ⟨false, "-100777"⟩, fun _ => none⟩

/-- Environment where delivery to target `999` succeeds with message id 17. -/
def envOneSend : HandleEnv := ⟨some ⟨false, "-100777"⟩, fun t => if t == "999" then some 17 else none⟩

/-- A keyword-matching group message with id 55 from sender 42. -/
def msgSample : MsgIn := ⟨some ⟨none, none, some 777⟩, 55, some "42", "恭喜开奖啦", false⟩

/-- Allow-list configuration for the migration scenario: the allow-list
holds the old (pre-migration) id form `-555` only. -/
def cfgMigration : MonitorConfig :=
  ⟨["555"], ["-555"], [], [], [], "1", "", "999", [], []⟩

/-- A message from the migrated chat: old `peerId.chatId` 555, current
`peerId.channelId` 777, so the current normalized chat id is `777`
(entity lookup fails and the id is rebuilt as `-100777`). -/
def msgMigration : MsgIn := ⟨some ⟨none, some 555, some 777⟩, 7, some "42", "hi", false⟩

/-- The environment of the migration scenario: the entity lookup throws. -/
def envMigration : HandleEnv := ⟨none, fun _ => none⟩

/-! ## Supporting lemmas -/

theorem sentLookup_sentSet_self (k : String) (v : List Nat) (st : SentStore) :
    sentLookup k (sentSet k v st) = some v := by
  induction st with
  | nil => simp [sentSet, sentLookup]
  | cons hd tl ih =>
    obtain ⟨k', v'⟩ := hd
    by_cases h : k' == k
    · simp [sentSet, sentLookup, h]
    · simp only [sentSet, sentLookup, h, if_neg, Bool.false_eq_true, ↓reduceIte]
      exact ih

theorem dedupLookup_dedupSet_self (k : String) (v : DedupEntry) (st : DedupStore) :
    dedupLookup k (dedupSet k v st) = some v := by
  induction st with
  | nil => simp [dedupSet, dedupLookup]
  | cons hd tl ih =>
    obtain ⟨k', v'⟩ := hd
    by_cases h : k' == k
    · simp [dedupSet, dedupLookup, h]
    · simp only [dedupSet, dedupLookup, h, Bool.false_eq_true, ↓reduceIte]
      exact ih

theorem dedupSet_of_lookup_none (k : String) (v : DedupEntry) (st : DedupStore)
    (h : dedupLookup k st = none) : dedupSet k v st = st ++ [(k, v)] := by
  induction st with
  | nil => rfl
  | cons hd tl ih =>
    obtain ⟨k', v'⟩ := hd
    simp only [dedupLookup] at h
    by_cases hk : k' == k
    · simp [hk] at h
    · simp only [hk, Bool.false_eq_true, ↓reduceIte] at h
      simp [dedupSet, hk, ih h]

theorem dedupLookup_filter_none (k : String) (st : DedupStore) (p : String × DedupEntry → Bool)
    (h : dedupLookup k st = none) : dedupLookup k (st.filter p) = none := by
  induction st with
  | nil => exact h
  | cons hd tl ih =>
    obtain ⟨k', v'⟩ := hd
    simp only [dedupLookup] at h
    by_cases hk : k' == k
    · simp [hk] at h
    · simp only [hk, Bool.false_eq_true, ↓reduceIte] at h
      by_cases hp : p (k', v')
      · simp only [List.filter_cons, hp, dedupLookup, hk, Bool.false_eq_true, ↓reduceIte]
        exact ih h
      · simp only [List.filter_cons, hp]
        exact ih h

theorem applySweeps_cons (W s : Int) (ss : List Int) (st : DedupStore) :
    applySweeps W (s :: ss) st = applySweeps W ss (cleanupProcessedMessages s W st) := rfl

theorem applySweeps_nil_store (W : Int) (ss : List Int) : applySweeps W ss [] = [] := by
  induction ss with
  | nil => rfl
  | cons s ss ih => simpa [applySweeps_cons, cleanupProcessedMessages] using ih

theorem applySweeps_append (W : Int) (ss : List Int) (a b : DedupStore) :
    applySweeps W ss (a ++ b) = applySweeps W ss a ++ applySweeps W ss b := by
  induction ss generalizing a b with
  | nil => rfl
  | cons s ss ih => simp [applySweeps_cons, cleanupProcessedMessages, List.filter_append, ih]

theorem dedupLookup_applySweeps_none (k : String) (W : Int) (ss : List Int) (st : DedupStore)
    (h : dedupLookup k st = none) : dedupLookup k (applySweeps W ss st) = none := by
  induction ss generalizing st with
  | nil => exact h
  | cons s ss ih =>
    rw [applySweeps_cons]
    exact ih _ (dedupLookup_filter_none k st _ h)

theorem dedupLookup_append_left_none (k : String) (a b : DedupStore)
    (h : dedupLookup k a = none) : dedupLookup k (a ++ b) = dedupLookup k b := by
  induction a with
  | nil => rfl
  | cons hd tl ih =>
    obtain ⟨k', v'⟩ := hd
    simp only [dedupLookup] at h
    by_cases hk : k' == k
    · simp [hk] at h
    · simp only [hk, Bool.false_eq_true, ↓reduceIte] at h
      simpa [dedupLookup, hk] using ih h

theorem applySweeps_singleton_keep (W t0 : Int) (ss : List Int) (k : String) (d : String)
    (h : ∀ s ∈ ss, ¬(s - t0 > W * 60 * 1000)) :
    applySweeps W ss [(k, ⟨t0, d⟩)] = [(k, ⟨t0, d⟩)] := by
  induction ss with
  | nil => rfl
  | cons s ss ih =>
    have hs : ¬(s - t0 > W * 60 * 1000) := h s (by simp)
    rw [applySweeps_cons]
    have hc : cleanupProcessedMessages s W [(k, ⟨t0, d⟩)] = [(k, ⟨t0, d⟩)] := by
      simp [cleanupProcessedMessages, hs]
    rw [hc]
    exact ih (fun s hs2 => h s (by simp [hs2]))

theorem applySweeps_singleton_dead (W t0 : Int) (ss : List Int) (k : String) (d : String)
    (h : ∃ s ∈ ss, s - t0 > W * 60 * 1000) :
    applySweeps W ss [(k, ⟨t0, d⟩)] = [] := by
  induction ss with
  | nil => simp at h
  | cons s ss ih =>
    rw [applySweeps_cons]
    by_cases hs : s - t0 > W * 60 * 1000
    · have hc : cleanupProcessedMessages s W [(k, ⟨t0, d⟩)] = [] := by
        simp [cleanupProcessedMessages, hs]
      rw [hc]
      exact applySweeps_nil_store W ss
    · have hc : cleanupProcessedMessages s W [(k, ⟨t0, d⟩)] = [(k, ⟨t0, d⟩)] := by
        simp [cleanupProcessedMessages, hs]
      rw [hc]
      refine ih ?_
      obtain ⟨s', hs', hgt⟩ := h
      rcases List.mem_cons.mp hs' with h1 | h2
      · exact absurd (h1 ▸ hgt) hs
      · exact ⟨s', h2, hgt⟩

theorem handleMessage_fst_notified_iff (cfg : MonitorConfig) (ent : Option ChatEnt)
    (nr : String → Option Nat) (now : Int) (msg : MsgIn) (st : DedupStore) (sent : SentStore) :
    (handleMessage cfg ⟨ent, nr⟩ now msg st sent).1 = .notified ↔
      ((preClassify cfg ent msg).exitReason = none ∧
        dedupLookup (preClassify cfg ent msg).key st = none) := by
  unfold handleMessage
  cases hp : (preClassify cfg ent msg).exitReason with
  | some r => simp [hp]
  | none =>
    cases hl : dedupLookup (preClassify cfg ent msg).key st with
    | some v => simp [hp, hl]
    | none => simp [hp, hl]

theorem handleMessage_store_notified (cfg : MonitorConfig) (ent : Option ChatEnt)
    (nr : String → Option Nat) (now : Int) (msg : MsgIn) (st : DedupStore) (sent : SentStore)
    (hp : (preClassify cfg ent msg).exitReason = none)
    (hl : dedupLookup (preClassify cfg ent msg).key st = none) :
    (handleMessage cfg ⟨ent, nr⟩ now msg st sent).2.1 =
      dedupSet (preClassify cfg ent msg).key ⟨now, (preClassify cfg ent msg).displayText⟩ st := by
  unfold handleMessage
  simp [hp, hl]

theorem handleMessage_fst_dup (cfg : MonitorConfig) (ent : Option ChatEnt)
    (nr : String → Option Nat) (now : Int) (msg : MsgIn) (st : DedupStore) (sent : SentStore)
    (hp : (preClassify cfg ent msg).exitReason = none)
    (hl : (dedupLookup (preClassify cfg ent msg).key st).isSome) :
    (handleMessage cfg ⟨ent, nr⟩ now msg st sent).1 = .skipDuplicate := by
  unfold handleMessage
  simp [hp, hl]

theorem safeDelete_foldl (itemOk : Nat → Bool) :
    ∀ (ids : List Nat) (d f : Nat),
      ids.foldl (fun acc i => if itemOk i then (acc.1 + 1, acc.2) else (acc.1, acc.2 + 1)) (d, f) =
        (d + (ids.filter itemOk).length, f + (ids.filter (fun i => !itemOk i)).length) := by
  intro ids
  induction ids with
  | nil => intro d f; simp
  | cons i ids ih =>
    intro d f
    by_cases hi : itemOk i
    · simp only [List.foldl_cons, hi, ↓reduceIte, ih, List.filter_cons, Bool.not_true,
        Bool.false_eq_true, List.length_cons, Prod.mk.injEq]
      constructor <;> (first | trivial | omega)
    · simp only [List.foldl_cons, hi, Bool.false_eq_true, ↓reduceIte, ih, List.filter_cons,
        Bool.not_false, List.length_cons, Prod.mk.injEq]
      constructor <;> (first | trivial | omega)

theorem filter_length_partition (p : Nat → Bool) (l : List Nat) :
    (l.filter p).length + (l.filter (fun a => !p a)).length = l.length := by
  induction l with
  | nil => rfl
  | cons a l ih => by_cases h : p a <;> simp [List.filter_cons, h] <;> omega

theorem word_space_absurd (c : Char) (hw : isWordCharJs c = true) (hs : isSpaceJs c = true) :
    False := by
  simp only [isWordCharJs, isSpaceJs, Bool.or_eq_true, Bool.and_eq_true, decide_eq_true_eq,
    beq_iff_eq] at hw hs
  omega

theorem isWordCharJs_not_space (c : Char) (hw : isWordCharJs c = true) : isSpaceJs c = false := by
  cases h : isSpaceJs c with
  | false => rfl
  | true => exact (word_space_absurd c hw h).elim

theorem isDigitJs_word (c : Char) (h : isDigitJs c = true) : isWordCharJs c = true := by
  simp only [isDigitJs, Bool.and_eq_true, decide_eq_true_eq] at h
  simp only [isWordCharJs, Bool.or_eq_true, Bool.and_eq_true, decide_eq_true_eq, beq_iff_eq]
  omega

theorem isDigitJs_not_space (c : Char) (h : isDigitJs c = true) : isSpaceJs c = false := by
  exact isWordCharJs_not_space c (isDigitJs_word c h)

theorem mem_takeWhile_pred {α : Type} (p : α → Bool) :
    ∀ (l : List α) (a : α), a ∈ l.takeWhile p → p a = true := by
  intro l
  induction l with
  | nil => intro a h; simp [List.takeWhile] at h
  | cons x xs ih =>
    intro a h
    by_cases hx : p x
    · rw [List.takeWhile_cons, if_pos hx] at h
      rcases List.mem_cons.mp h with h1 | h2
      · exact h1 ▸ hx
      · exact ih a h2
    · rw [List.takeWhile_cons, if_neg hx] at h
      simp at h

theorem takeWhile_eq_self_of_all {α : Type} (p : α → Bool) :
    ∀ l : List α, (∀ a ∈ l, p a = true) → l.takeWhile p = l := by
  intro l
  induction l with
  | nil => intro _; rfl
  | cons x xs ih =>
    intro h
    rw [List.takeWhile_cons, if_pos (h x (by simp))]
    rw [ih (fun a ha => h a (by simp [ha]))]

theorem mem_normalizeIdList_digit (l : List Char) (c : Char) (h : c ∈ normalizeIdList l) :
    isDigitJs c = true :=
  mem_takeWhile_pred isDigitJs _ c h

theorem stripWs_of_digits (l : List Char) (h : ∀ c ∈ l, isDigitJs c = true) : stripWs l = l := by
  unfold stripWs
  rw [List.filter_eq_self]
  intro a ha
  simp [isDigitJs_not_space a (h a ha)]

theorem dropMarker_of_digits (l : List Char) (h : ∀ c ∈ l, isDigitJs c = true)
    (h100 : startsWith100 l = false) : dropMarker l = l := by
  unfold dropMarker
  split
  · exact absurd (h '-' (by simp)) (by decide)
  · simp [startsWith100] at h100
  · exact absurd (h '-' (by simp)) (by decide)
  · rfl

theorem normalizeIdList_fixed (l : List Char) (h : ∀ c ∈ l, isDigitJs c = true)
    (h100 : startsWith100 l = false) : normalizeIdList l = l := by
  unfold normalizeIdList
  rw [stripWs_of_digits l h, dropMarker_of_digits l h h100]
  exact takeWhile_eq_self_of_all isDigitJs l h

theorem keywordNeedsSubstring_eq_false (kw : List Char)
    (h : ∀ c ∈ kw, isWordCharJs c = true) : keywordNeedsSubstring kw = false := by
  unfold keywordNeedsSubstring
  rw [Bool.or_eq_false_iff]
  constructor
  · rw [List.any_eq_false]
    intro c hc
    simp [h c hc]
  · rw [List.any_eq_false]
    intro c hc
    simp [isWordCharJs_not_space c (h c hc)]

theorem keywordNeedsSubstring_eq_true (kw : List Char) (c : Char) (hc : c ∈ kw)
    (h : isWordCharJs c = false ∨ isSpaceJs c = true) : keywordNeedsSubstring kw = true := by
  unfold keywordNeedsSubstring
  rw [Bool.or_eq_true]
  cases hs : isSpaceJs c with
  | true => exact Or.inr (List.any_eq_true.mpr ⟨c, hc, hs⟩)
  | false =>
    rcases h with hw | hsp
    · exact Or.inl (List.any_eq_true.mpr ⟨c, hc, by simp [hw, hs]⟩)
    · rw [hs] at hsp
      simp at hsp

/-! ## Claim theorems -/

/-- Claim C2, counterexample: `normalizeId` is not idempotent.  On the
channel-form input `"-1001001234"` one application strips the `-100` marker
and yields `"1001234"`; a second application strips the leading `100` of
that value as a marker again and yields `"1234"`. -/
theorem normalizeId_not_idempotent_cex :
    normalizeId (normalizeId "-1001001234") ≠ normalizeId "-1001001234" := by decide

/-- Claim C2, amended: `normalizeId (normalizeId x) = normalizeId x` for
every input `x` whose normalized value does not itself begin with the digit
sequence `100`; for such values the normalized form is a digit string that
the whitespace strip, the marker strip and the digit-run capture all leave
unchanged. -/
theorem normalizeId_idempotent_amended (s : String)
    (h : startsWith100 (normalizeId s).data = false) :
    normalizeId (normalizeId s) = normalizeId s := by
  have hd : ∀ c ∈ (normalizeId s).data, isDigitJs c = true := by
    intro c hc
    exact mem_normalizeIdList_digit s.data c hc
  have key : normalizeIdList (normalizeId s).data = (normalizeId s).data :=
    normalizeIdList_fixed _ hd h
  show String.mk (normalizeIdList (normalizeId s).data) = normalizeId s
  rw [key]

/-- Claim C2, witness for the amended theorem at `"-1001234"`. -/
theorem normalizeId_idempotent_amended_witness :
    startsWith100 (normalizeId "-1001234").data = false ∧
      normalizeId (normalizeId "-1001234") = normalizeId "-1001234" :=
  ⟨by decide, normalizeId_idempotent_amended "-1001234" (by decide)⟩

/-- Claim C3, code bug: an `AUTO_DELETE_MINUTES` of exactly `"0"` does not
disable the expiry subsystem.  `parseInt('0') || 10` evaluates to the
default `10`, so the `AUTO_DELETE_MINUTES <= 0` early exit of
`deleteExpiredMessages` does not fire and `startAutoDeleteInterval`
schedules the scan timer — contrary to the claim and to the code's own
comment that `0` disables the feature.  Negative values do disable it. -/
theorem autoDelete_zero_enables_bug :
    effectiveAutoDeleteMinutes (some "0") = 10 ∧
      autoDeleteDisabled (effectiveAutoDeleteMinutes (some "0")) = false ∧
      autoDeleteTimerScheduled (effectiveAutoDeleteMinutes (some "0")) = true ∧
      effectiveAutoDeleteMinutes (some "-3") = -3 ∧
      autoDeleteDisabled (effectiveAutoDeleteMinutes (some "-3")) = true ∧
      autoDeleteTimerScheduled (effectiveAutoDeleteMinutes (some "-3")) = false := by decide

/-- Claim C4, counterexample: the keyword `a_b` contains punctuation (the
underscore is neither alphanumeric nor whitespace), so the claim prescribes
plain substring matching, which would match inside the text `xa_by`; but
underscore is a `\w` character, so `matchKeyword` routes the keyword to the
word-boundary branch and reports no match. -/
theorem keyword_underscore_substring_cex :
    Char.isAlphanum '_' = false ∧ isSpaceJs '_' = false ∧
      jsIncludes "xa_by" "a_b" = true ∧
      classifierKeywordMatch "xa_by" ["a_b"] = false := by decide

/-- Claim C4, amended: classifier keyword matching is case-insensitive
(text is lowercased, configured keywords are pre-lowercased); keywords made
only of word characters (alphanumerics or underscore) use word-boundary
matching — `win` does not match inside `winner` but matches in `red win!` —
and keywords containing whitespace or a character outside `[A-Za-z0-9_]`
(such as `红包`) use plain substring matching anywhere in the text. -/
theorem matchKeyword_amended :
    (∀ (t kw : List Char), (∀ c ∈ kw, isWordCharJs c = true) →
        matchKeywordOne t kw = wordBoundaryTest t kw) ∧
      (∀ (t kw : List Char) (c : Char), c ∈ kw →
        isWordCharJs c = false ∨ isSpaceJs c = true →
        matchKeywordOne t kw = jsIncludesList t kw) ∧
      classifierKeywordMatch "winner" ["win"] = false ∧
      classifierKeywordMatch "red win!" ["win"] = true ∧
      classifierKeywordMatch "Red WIN!" ["win"] = true ∧
      classifierKeywordMatch "abc红包def" ["红包"] = true := by
  refine ⟨?_, ?_, by decide, by decide, by decide, by decide⟩
  · intro t kw h
    unfold matchKeywordOne
    rw [keywordNeedsSubstring_eq_false kw h]
    simp
  · intro t kw c hc h
    unfold matchKeywordOne
    rw [keywordNeedsSubstring_eq_true kw c hc h]
    simp

/-- Claim C4, witness for the amended theorem: the all-word-character
keyword `win` takes the boundary branch, the CJK keyword `红包` the
substring branch. -/
theorem matchKeyword_amended_witness :
    matchKeywordOne "red win!".data "win".data = wordBoundaryTest "red win!".data "win".data ∧
      matchKeywordOne "abc红包def".data "红包".data = jsIncludesList "abc红包def".data "红包".data :=
  ⟨matchKeyword_amended.1 "red win!".data "win".data (by decide),
   matchKeyword_amended.2.1 "abc红包def".data "红包".data '红' (by decide) (by decide)⟩

/-- Claim C5, confirmed: `safeDeleteMessages` returns
`(ids.length, 0)` when the bulk call succeeds; when it fails, every id is
attempted individually and the counts partition the batch (successes plus
failures equal the batch size); a 5-id batch with exactly two individual
failures yields `(3, 2)`. -/
theorem safeDeleteMessages_spec :
    (∀ (itemOk : Nat → Bool) (ids : List Nat),
        safeDeleteMessages true itemOk ids = (ids.length, 0)) ∧
      (∀ (itemOk : Nat → Bool) (ids : List Nat),
        safeDeleteMessages false itemOk ids =
          ((ids.filter itemOk).length, (ids.filter (fun i => !itemOk i)).length) ∧
        (safeDeleteMessages false itemOk ids).1 + (safeDeleteMessages false itemOk ids).2 =
          ids.length) ∧
      safeDeleteMessages false (fun i => !(i == 2 || i == 4)) [1, 2, 3, 4, 5] = (3, 2) := by
  refine ⟨fun itemOk ids => rfl, fun itemOk ids => ?_, by decide⟩
  have h2 : safeDeleteMessages false itemOk ids =
      ((ids.filter itemOk).length, (ids.filter (fun i => !itemOk i)).length) := by
    unfold safeDeleteMessages
    simp only [Bool.false_eq_true, ↓reduceIte]
    rw [safeDelete_foldl itemOk ids 0 0]
    simp
  refine ⟨h2, ?_⟩
  rw [h2]
  exact filter_length_partition itemOk ids

/-- Claim C6, code bug: with `autoDeleteMinutes = 10` the recent pass of the
expiry scanner returns no messages at all: its break condition
`msg.date < now - 600` is checked before the expiry condition
`msg.date < cutoffTime` and the two bounds coincide, so a self-authored
deletable message sent at `T-601s` (which satisfies the expiry cutoff) is
excluded, contrary to the claim.  The `T-599s` message is excluded as the
claim states. -/
theorem recentPass_boundary_bug :
    (∀ (now : Int) (myUserId : Nat) (msgs : List (Option ScanMsg)),
        getRecentMessagesRealtime now (now - 10 * 60) myUserId msgs = []) ∧
      isDeletableMessage ⟨1, 1000000 - 601, some 42, false, false, "hi", false⟩ = true ∧
      compareSenderId (some 42) (some 42) = true ∧
      ((1000000 : Int) - 601) < 1000000 - 10 * 60 ∧
      getRecentMessagesRealtime 1000000 (1000000 - 10 * 60) 42
        [some ⟨1, 1000000 - 601, some 42, false, false, "hi", false⟩] = [] ∧
      getRecentMessagesRealtime 1000000 (1000000 - 10 * 60) 42
        [some ⟨2, 1000000 - 599, some 42, false, false, "hi", false⟩] = [] := by
  refine ⟨?_, by decide, by decide, by decide, by decide, by decide⟩
  intro now myUserId msgs
  induction msgs with
  | nil => rfl
  | cons o rest ih =>
    cases o with
    | none => simpa [getRecentMessagesRealtime] using ih
    | some m =>
      simp only [getRecentMessagesRealtime]
      by_cases h1 : m.date < now - 600
      · simp [h1]
      · have hd : ¬(m.date < now - 10 * 60) := by omega
        simp [h1, hd]
        simpa using ih

/-- Claim C7, code bug: a negative `DEDUP_WINDOW_MINUTES` does not fall back
to `Math.max(1, AUTO_DELETE_MINUTES)`: `parseInt('-5')` is truthy, so the
effective window stays `-5` (the warning log that claims the default is
used is wrong), and with a negative TTL the periodic sweep deletes every
entry — even one inserted at the very moment of the sweep.  Only `0` and
unparsable values fall back as claimed. -/
theorem dedupWindow_negative_fallback_bug :
    effectiveDedupWindowMinutes (some "-5") 10 = -5 ∧
      max 1 (10 : Int) = 10 ∧
      effectiveDedupWindowMinutes (some "0") 10 = 10 ∧
      effectiveDedupWindowMinutes (some "abc") 10 = 10 ∧
      cleanupProcessedMessages 1000 (-5) [("777:55", ⟨1000, "x"⟩)] = [] := by decide

/-- Claim C8, code bug: the group-migration fallback of `handleMessage` is
unreachable.  With the non-empty allow-list `['-555']` (normalized
`['555']`) and a message whose current normalized chat id is `777` but
whose old id form `-555` normalizes into the allow-list, `handleMessage`
returns \"not monitored\" at the non-empty-allow-list check, which sits
before the migration fallback, so the message is dropped rather than
processed. -/
theorem migration_fallback_dead_bug :
    cfgMigration.normalizedMonitorIds.contains (normalizeId ("-" ++ toString 555)) = true ∧
      (msgMigration.peerId.map (fun p => jsTruthyNat p.chatId && jsTruthyNat p.channelId)) =
        some true ∧
      cfgMigration.monitorChatIds.isEmpty = false ∧
      (handleMessage cfgMigration envMigration 0 msgMigration [] []).1 =
        .skipped .notMonitored := by decide

/-- Claim C9, confirmed: after `deletePreviousNotifications` runs for a
notification target, the target's recorded id list is empty — when the key
was present it is set to `[]` rather than removed — and an immediately
following retraction for the same target finds zero dispatched ids to
delete. -/
theorem deletePreviousNotifications_clears (store : SentStore) (target : String) :
    (sentLookup target (deletePreviousNotifications store target).2).getD [] = [] ∧
      ((sentLookup target store).isSome →
        sentLookup target (deletePreviousNotifications store target).2 = some []) ∧
      (deletePreviousNotifications (deletePreviousNotifications store target).2 target).1 = [] := by
  unfold deletePreviousNotifications
  cases hl : sentLookup target store with
  | none => simp [hl]
  | some v =>
    by_cases hv : v.isEmpty
    · have hveq : v = [] := by simpa using hv
      subst hveq
      simp [hl]
    · simp [hl, hv, sentLookup_sentSet_self]

/-- Claim C9, witness at a store holding ids `[5, 6]` for target `999`. -/
theorem deletePreviousNotifications_clears_witness :
    sentLookup "999" (deletePreviousNotifications [("999", [5, 6])] "999").2 = some [] ∧
      (deletePreviousNotifications (deletePreviousNotifications [("999", [5, 6])] "999").2
        "999").1 = [] :=
  ⟨(deletePreviousNotifications_clears [("999", [5, 6])] "999").2.1 (by decide),
   (deletePreviousNotifications_clears [("999", [5, 6])] "999").2.2⟩

/-- Claim C1, counterexample: acceptance does not return at `t0 + W + ε`.
With window `W = 1` minute, a fingerprint accepted at `t0 = 0` and replayed
at `t1 = t0 + W·60000 + 1` milliseconds is still rejected even though a
periodic sweep ran at exactly `t0 + W·60000`: the sweep's removal condition
`now - ts > ttl` is strict and the arrival check is `processedMessages.has`
only, so the entry survives and the replay is dropped. -/
theorem dedup_reacceptance_cex :
    (handleMessage cfgMonitorAll envNoSend 0 msgSample [] []).1 = .notified ∧
      (0 : Int) + 1 * 60 * 1000 + 1 = 60001 ∧
      (handleMessage cfgMonitorAll envNoSend 60001 msgSample
        (applySweeps 1 [60000] (handleMessage cfgMonitorAll envNoSend 0 msgSample [] []).2.1)
        []).1 = .skipDuplicate := by decide

/-- Claim C1, amended: if `handleMessage` accepts a fingerprint at `t0`
(forwarding the message and inserting the entry), then a message with the
same fingerprint arriving at any `t1` with `t0 ≤ t1 < t0 + W` minutes is
rejected no matter which cleanup sweeps ran in between (a sweep at a time
`s ≤ t1` cannot remove the entry), and it is accepted again at `t1` as soon
as some periodic cleanup sweep has run at a time `s` with
`t0 + W < s ≤ t1` (without such a sweep a replay after the window is still
rejected, as the counterexample shows). -/
theorem dedup_window_amended (cfg : MonitorConfig) (ent : Option ChatEnt)
    (nr nr2 : String → Option Nat) (msg : MsgIn) (st : DedupStore) (sent sent2 : SentStore)
    (t0 t1 W : Int) (sweeps : List Int)
    (h1 : (handleMessage cfg ⟨ent, nr⟩ t0 msg st sent).1 = .notified) :
    ((∀ s ∈ sweeps, s ≤ t1) → t0 ≤ t1 → t1 < t0 + W * 60 * 1000 →
        (handleMessage cfg ⟨ent, nr2⟩ t1 msg
          (applySweeps W sweeps (handleMessage cfg ⟨ent, nr⟩ t0 msg st sent).2.1) sent2).1 =
          .skipDuplicate) ∧
      ((∃ s ∈ sweeps, t0 + W * 60 * 1000 < s) →
        (handleMessage cfg ⟨ent, nr2⟩ t1 msg
          (applySweeps W sweeps (handleMessage cfg ⟨ent, nr⟩ t0 msg st sent).2.1) sent2).1 =
          .notified) := by
  obtain ⟨hp, hl⟩ := (handleMessage_fst_notified_iff cfg ent nr t0 msg st sent).mp h1
  have hstore := handleMessage_store_notified cfg ent nr t0 msg st sent hp hl
  have happend : (handleMessage cfg ⟨ent, nr⟩ t0 msg st sent).2.1 =
      st ++ [((preClassify cfg ent msg).key,
        (⟨t0, (preClassify cfg ent msg).displayText⟩ : DedupEntry))] := by
    rw [hstore]
    exact dedupSet_of_lookup_none _ _ st hl
  constructor
  · intro hall h0le hlt
    have hkeep : applySweeps W sweeps
        [((preClassify cfg ent msg).key,
          (⟨t0, (preClassify cfg ent msg).displayText⟩ : DedupEntry))] =
        [((preClassify cfg ent msg).key,
          (⟨t0, (preClassify cfg ent msg).displayText⟩ : DedupEntry))] := by
      refine applySweeps_singleton_keep W t0 sweeps _ _ ?_
      intro s hs
      have := hall s hs
      omega
    have hlook : dedupLookup (preClassify cfg ent msg).key
        (applySweeps W sweeps (handleMessage cfg ⟨ent, nr⟩ t0 msg st sent).2.1) =
        some ⟨t0, (preClassify cfg ent msg).displayText⟩ := by
      rw [happend, applySweeps_append,
        dedupLookup_append_left_none _ _ _ (dedupLookup_applySweeps_none _ W sweeps st hl),
        hkeep]
      simp [dedupLookup]
    refine handleMessage_fst_dup cfg ent nr2 t1 msg _ sent2 hp ?_
    rw [hlook]
    rfl
  · intro hex
    have hdead : applySweeps W sweeps
        [((preClassify cfg ent msg).key,
          (⟨t0, (preClassify cfg ent msg).displayText⟩ : DedupEntry))] = [] := by
      refine applySweeps_singleton_dead W t0 sweeps _ _ ?_
      obtain ⟨s, hs, hgt⟩ := hex
      exact ⟨s, hs, by omega⟩
    have hlook : dedupLookup (preClassify cfg ent msg).key
        (applySweeps W sweeps (handleMessage cfg ⟨ent, nr⟩ t0 msg st sent).2.1) = none := by
      rw [happend, applySweeps_append,
        dedupLookup_append_left_none _ _ _ (dedupLookup_applySweeps_none _ W sweeps st hl),
        hdead]
      rfl
    exact (handleMessage_fst_notified_iff cfg ent nr2 t1 msg _ sent2).mpr ⟨hp, hlook⟩

/-- Claim C1, witness for the amended theorem: a fingerprint accepted at
`t0 = 0` with window 1 minute is rejected at `t1 = 30000` ms after a sweep
at 20000 ms, and accepted again at `t1 = 70001` ms after a sweep at
70000 ms (which is past `t0 + 60000`). -/
theorem dedup_window_amended_witness :
    (handleMessage cfgMonitorAll envNoSend 0 msgSample [] []).1 = .notified ∧
      (handleMessage cfgMonitorAll envNoSend 30000 msgSample
        (applySweeps 1 [20000] (handleMessage cfgMonitorAll envNoSend 0 msgSample [] []).2.1)
        []).1 = .skipDuplicate ∧
      (handleMessage cfgMonitorAll envNoSend 70001 msgSample
        (applySweeps 1 [70000] (handleMessage cfgMonitorAll envNoSend 0 msgSample [] []).2.1)
        []).1 = .notified :=
  ⟨by decide,
   (dedup_window_amended cfgMonitorAll (some ⟨false, "-100777"⟩) (fun _ => none) (fun _ => none)
      msgSample [] [] [] 0 30000 1 [20000] (by decide)).1 (by decide) (by decide) (by decide),
   (dedup_window_amended cfgMonitorAll (some ⟨false, "-100777"⟩) (fun _ => none) (fun _ => none)
      msgSample [] [] [] 0 70001 1 [70000] (by decide)).2 (by decide)⟩

/-- Claim C10, confirmed (implicit): when `handleMessage` forwards a
message, the dedup entry is inserted into `processedMessages` independently
of the notification outcomes — the outcome and the resulting dedup store
are the same whether every dispatch fails or succeeds, the inserted entry
carries the arrival time, and a replay of the same fingerprint against the
resulting store is dropped as a duplicate (with any notification
environment), even though the original notification may never have been
delivered. -/
theorem dedup_inserted_despite_dispatch_failure (cfg : MonitorConfig) (ent : Option ChatEnt)
    (nr nr2 nr3 : String → Option Nat) (now t1 : Int) (msg : MsgIn) (st : DedupStore)
    (sent sent2 : SentStore)
    (h1 : (handleMessage cfg ⟨ent, nr⟩ now msg st sent).1 = .notified) :
    (handleMessage cfg ⟨ent, nr2⟩ now msg st sent).1 = .notified ∧
      (handleMessage cfg ⟨ent, nr2⟩ now msg st sent).2.1 =
        (handleMessage cfg ⟨ent, nr⟩ now msg st sent).2.1 ∧
      dedupLookup (preClassify cfg ent msg).key
        (handleMessage cfg ⟨ent, nr⟩ now msg st sent).2.1 =
        some ⟨now, (preClassify cfg ent msg).displayText⟩ ∧
      (handleMessage cfg ⟨ent, nr3⟩ t1 msg (handleMessage cfg ⟨ent, nr⟩ now msg st sent).2.1
        sent2).1 = .skipDuplicate := by
  obtain ⟨hp, hl⟩ := (handleMessage_fst_notified_iff cfg ent nr now msg st sent).mp h1
  have hst1 := handleMessage_store_notified cfg ent nr now msg st sent hp hl
  have hst2 := handleMessage_store_notified cfg ent nr2 now msg st sent hp hl
  refine ⟨(handleMessage_fst_notified_iff cfg ent nr2 now msg st sent).mpr ⟨hp, hl⟩,
    by rw [hst1, hst2], ?_, ?_⟩
  · rw [hst1]
    exact dedupLookup_dedupSet_self _ _ st
  · refine handleMessage_fst_dup cfg ent nr3 t1 msg _ sent2 hp ?_
    rw [hst1, dedupLookup_dedupSet_self]
    rfl

/-- Claim C10, witness: a message accepted at time 5 while every dispatch
fails (`envNoSend`) produces the same dedup store as one where dispatch
succeeds (`envOneSend`), and the replay at time 99 is dropped. -/
theorem dedup_inserted_despite_dispatch_failure_witness :
    (handleMessage cfgMonitorAll envNoSend 5 msgSample [] []).1 = .notified ∧
      (handleMessage cfgMonitorAll envOneSend 5 msgSample [] []).2.1 =
        (handleMessage cfgMonitorAll envNoSend 5 msgSample [] []).2.1 ∧
      (handleMessage cfgMonitorAll envNoSend 99 msgSample
        (handleMessage cfgMonitorAll envNoSend 5 msgSample [] []).2.1 []).1 = .skipDuplicate := by
  have h := dedup_inserted_despite_dispatch_failure cfgMonitorAll (some ⟨false, "-100777"⟩)
    (fun _ => none) (fun t => if t == "999" then some 17 else none) (fun _ => none)
    5 99 msgSample [] [] [] (by decide)
  exact ⟨by decide, h.2.1, h.2.2.2⟩

end MonitorTG
